import Mathlib

/-!
Verification of the soundpad.js command/response session layer.

The definitions below are a shallow embedding of `src/soundpad.ts` (the current
generation of the library).  Pure reply-handling code becomes Lean functions on
`String`; the event-driven session core becomes explicit state passing and a
small-step trace semantics; values produced by the external XML parser are
modelled by a `JSValue` type distinguishing the string/number inference the
parser performs on attribute text.
-/

namespace SoundpadJS

/-! ## JavaScript string primitives used by the reply handlers -/

/-- JavaScript `s.startsWith(p)`: `p`'s characters are a prefix of `s`'s. -/
def strStartsWith (s p : String) : Bool :=
  p.data.isPrefixOf s.data

/-- JavaScript `s.trim()`: strip leading and trailing whitespace. -/
def jsTrim (s : String) : String :=
  ⟨((s.data.dropWhile Char.isWhitespace).reverse.dropWhile Char.isWhitespace).reverse⟩

/-! ## Reply status handling (`isSuccess`, `search`, `getPlayStatus`) -/

/-- `Soundpad.isSuccess` (string overload): `response.startsWith("R-200")`. -/
def isSuccess (response : String) : Bool :=
  strStartsWith response "R-200"

/-- Result of a boolean command method together with whether a diagnostic
line was written to the error log while handling the reply. -/
structure CmdResult where
  value : Bool
  logged : Bool
  deriving DecidableEq, Repr

/-- Reply handling shared by every method defined as
`await this.isSuccess(this.sendQuery(...))` (`playSound`, `addSound`,
`setVolume`, `stopSound`, ...): the prefix check only, no logging. -/
def isSuccessReply (response : String) : CmdResult :=
  { value := isSuccess response, logged := false }

/-- Reply handling of `Soundpad.search`:
`if (response !== "R-200") { console.error(response); return false } return true`. -/
def searchReply (response : String) : CmdResult :=
  if response ≠ "R-200" then { value := false, logged := true }
  else { value := true, logged := false }

/-- The `PlayStatus` string enum. -/
inductive PlayStatus where
  | STOPPED
  | PLAYING
  | PAUSED
  | SEEKING
  deriving DecidableEq, Repr

/-- The own property names of `Object.prototype` in Node's runtime.  A
TypeScript string enum compiles to a plain object literal whose prototype is
`Object.prototype`, so the enum object inherits all of these. -/
def objectPrototypeKeys : List String :=
  ["constructor", "hasOwnProperty", "isPrototypeOf", "propertyIsEnumerable",
   "toLocaleString", "toString", "valueOf", "__proto__",
   "__defineGetter__", "__defineSetter__", "__lookupGetter__", "__lookupSetter__"]

/-- What the indexed read `PlayStatus[response]` produces when the test
`response in PlayStatus` succeeded: one of the four enum values for an own
key, or the member inherited from `Object.prototype` (a function, or the
prototype object itself for `__proto__`) for an inherited key. -/
inductive PlayStatusReturn where
  | enumValue (s : PlayStatus)
  | inheritedMember (key : String)
  deriving DecidableEq, Repr

/-- The JavaScript test `response in PlayStatus` combined with the indexed
lookup `PlayStatus[response]`.  `in` is `HasProperty`, which walks the
prototype chain: the four literal names are own keys mapping to enum values,
an `Object.prototype` key is also found and the read then yields the
inherited member, and any other key is absent. -/
def playStatusLookup (s : String) : Option PlayStatusReturn :=
  if s = "STOPPED" then some (.enumValue .STOPPED)
  else if s = "PLAYING" then some (.enumValue .PLAYING)
  else if s = "PAUSED" then some (.enumValue .PAUSED)
  else if s = "SEEKING" then some (.enumValue .SEEKING)
  else if s ∈ objectPrototypeKeys then some (.inheritedMember s)
  else none

/-- Result of `getPlayStatus` reply handling. -/
structure PlayStatusResult where
  status : PlayStatusReturn
  logged : Bool
  deriving DecidableEq, Repr

/-- Reply handling of `Soundpad.getPlayStatus`: log when the reply starts
with `"R"`, then return `PlayStatus[response]` if `response in PlayStatus`,
defaulting to `STOPPED`. -/
def getPlayStatusReply (response : String) : PlayStatusResult :=
  { status := (playStatusLookup response).getD (.enumValue .STOPPED)
    logged := strStartsWith response "R" }

/-! ## `Number.parseInt` and the integer-coded boolean getters -/

/-- Value of a hexadecimal digit character, if it is one. -/
def hexDigitVal (c : Char) : Option Nat :=
  if c.isDigit then some (c.toNat - 48)
  else if 'a' ≤ c ∧ c ≤ 'f' then some (c.toNat - 87)
  else if 'A' ≤ c ∧ c ≤ 'F' then some (c.toNat - 55)
  else none

/-- Fold a digit list into a natural number in the given radix
(digits are assumed valid; invalid ones contribute 0). -/
def digitsToNat (radix : Nat) (ds : List Char) : Nat :=
  ds.foldl (fun acc c => acc * radix + ((hexDigitVal c).getD 0)) 0

/-- `Number.parseInt(s)` with the radix argument omitted: skip leading
whitespace, read an optional sign, honour a `0x`/`0X` prefix as hexadecimal,
then parse the longest prefix of digits; no digits means `NaN`, modelled as
`none`. -/
def jsParseInt (s : String) : Option Int :=
  let cs := s.data.dropWhile Char.isWhitespace
  let signed : Int × List Char :=
    match cs with
    | '-' :: rest => (-1, rest)
    | '+' :: rest => (1, rest)
    | _ => (1, cs)
  let sign := signed.1
  match signed.2 with
  | '0' :: c :: rest =>
    if c = 'x' ∨ c = 'X' then
      let ds := rest.takeWhile (fun d => (hexDigitVal d).isSome)
      if ds.isEmpty then none else some (sign * (digitsToNat 16 ds : Nat))
    else
      let ds := ('0' :: c :: rest).takeWhile Char.isDigit
      some (sign * (digitsToNat 10 ds : Nat))
  | other =>
    let ds := other.takeWhile Char.isDigit
    if ds.isEmpty then none else some (sign * (digitsToNat 10 ds : Nat))

/-- `Soundpad.isMuted`: `Number.parseInt(response) === 1`. -/
def isMuted (response : String) : Bool :=
  jsParseInt response = some 1

/-- `Soundpad.isTrial`: `null` when the trimmed reply is empty, otherwise
`Number.parseInt(response) == 1`. -/
def isTrial (response : String) : Option Bool :=
  if jsTrim response = "" then none
  else some (jsParseInt response = some 1)

/-! ## Session core: state, `sendQuery` dispatch, close handling

The `Soundpad` class fields that the control flow of `sendQuery` and of the
`close` handler reads are embedded as a record.  The connection-ready signal
(`connectionAwaiter`, a promise replaced wholesale on construction and on each
auto-reconnect) is modelled by a generation counter plus a resolved flag: the
promise currently stored in the field is generation `awaiterGen`, and a fresh
unresolved promise means `awaiterResolved = false`. -/

structure SessionOptions where
  autoReconnect : Bool
  startSoundpadOnConnect : Bool
  deriving DecidableEq, Repr

structure SessionState where
  /-- `this.dataDriver !== null` -/
  hasDataDriver : Bool
  /-- `this._pipe !== null` -/
  hasPipe : Bool
  isConnected : Bool
  /-- which `connectionAwaiter` promise is currently stored -/
  awaiterGen : Nat
  /-- whether that promise has been resolved -/
  awaiterResolved : Bool
  options : SessionOptions
  deriving DecidableEq, Repr

/-- How the leading dispatch of `sendQuery` (before any awaiting) proceeds. -/
inductive SendQueryDispatch where
  /-- `return await this.dataDriver(query)` -/
  | delegatedToDriver
  /-- `_pipe === null` and `startSoundpadOnConnect`: `await this.openSoundpad()` first -/
  | launchThenAwait
  /-- `_pipe === null` otherwise: `throw new Error("Please connect the pipe ...")` -/
  | threwNotConnected
  /-- fall through to `await this.connectionAwaiter` and the write -/
  | awaitThenWrite
  deriving DecidableEq, Repr

/-- The branch structure at the top of `Soundpad.sendQuery`. -/
def sendQueryDispatch (st : SessionState) : SendQueryDispatch :=
  if st.hasDataDriver then .delegatedToDriver
  else if st.hasPipe = false then
    if st.options.startSoundpadOnConnect then .launchThenAwait
    else .threwNotConnected
  else .awaitThenWrite

/-- What the `close` handler installed by `connect()` produced. -/
structure CloseResult where
  state : SessionState
  emittedCloseEvent : Bool
  /-- `openSoundpad()` was invoked before reconnecting -/
  relaunched : Bool
  /-- `void this.connect()` was invoked -/
  reconnectInvoked : Bool
  deriving DecidableEq, Repr

/-- The `close` handler of the native transport: mark disconnected, drop the
pipe, emit the `close` event; when `autoReconnect` is set, relaunch the target
if `startSoundpadOnConnect` is also set, install a fresh (unresolved)
`connectionAwaiter` and re-invoke `connect()`. -/
def handleClose (st : SessionState) : CloseResult :=
  let st1 := { st with isConnected := false, hasPipe := false }
  if st.options.autoReconnect then
    { state := { st1 with awaiterGen := st1.awaiterGen + 1, awaiterResolved := false }
      emittedCloseEvent := true
      relaunched := st.options.startSoundpadOnConnect
      reconnectInvoked := true }
  else
    { state := st1
      emittedCloseEvent := true
      relaunched := false
      reconnectInvoked := false }

/-! ## Trace semantics of one `sendQuery` on the native transport

After its dispatch, `sendQuery` runs `await this.connectionAwaiter`, then
writes the command bytes and resolves with the payload of the next `data`
event.  Environment occurrences are modelled as a list of events processed in
order; the suspended query is a small-step machine over them. -/

/-- An occurrence the pending query can observe. -/
inductive TransportEvent where
  /-- the `connectionAwaiter` of generation `gen` resolves
  (`connectionResolveFunction(true)` ran in the connect callback) -/
  | ready (gen : Nat)
  /-- an inbound `data` event with decoded text `payload` -/
  | data (payload : String)
  deriving DecidableEq, Repr

/-- Where a single `sendQuery` call stands. -/
inductive QueryPhase where
  /-- suspended at `await this.connectionAwaiter` (the promise of
  generation `gen`), with the command text not yet written -/
  | awaitingReady (gen : Nat) (query : String)
  /-- command bytes written; suspended at `once("data")` -/
  | awaitingData (query : String)
  /-- promise resolved with the decoded reply -/
  | resolved (response : String)
  deriving DecidableEq, Repr

/-- One step of the pending query: the optional `String` is the command text
written to the transport during this step. -/
def queryStep : QueryPhase → TransportEvent → QueryPhase × Option String
  | .awaitingReady g q, .ready g' =>
    if g' = g then (.awaitingData q, some q) else (.awaitingReady g q, none)
  | .awaitingData _, .data s => (.resolved s, none)
  | p, _ => (p, none)

/-- Run the pending query over a list of events starting at index `i`,
returning the final phase and every write as an `(index, text)` pair. -/
def runQueryFrom (i : Nat) (p : QueryPhase) :
    List TransportEvent → QueryPhase × List (Nat × String)
  | [] => (p, [])
  | e :: es =>
    let step := queryStep p e
    let rest := runQueryFrom (i + 1) step.1 es
    (rest.1, (match step.2 with
              | some q => [(i, q)]
              | none => []) ++ rest.2)

/-- Run from index 0. -/
def runQuery (p : QueryPhase) (events : List TransportEvent) :
    QueryPhase × List (Nat × String) :=
  runQueryFrom 0 p events

/-! ## Values produced by the XML parser

`fast-xml-parser` is configured with `parseAttributeValue: true`, so an
attribute whose text is all digits is inferred as a number; any other text
stays a string.  A decoded attribute is therefore either a string or a
number. -/

inductive JSValue where
  | str (s : String)
  | num (n : Int)
  deriving DecidableEq, Repr

/-- JavaScript `String(x)` on a parsed attribute value. -/
def jsString : JSValue → JSValue
  | .str s => .str s
  | .num n => .str (toString n)

def JSValue.isString : JSValue → Bool
  | .str _ => true
  | .num _ => false

/-- A `Sound` record as it sits in the parsed attribute group `$`: `title`
and `tag` carry whatever type the parser inferred. -/
structure Sound where
  index : Int
  url : String
  artist : String
  title : JSValue
  duration : String
  addedOn : String
  color : Option String
  tag : JSValue
  lastPlayedOn : String
  playCount : Int
  deriving DecidableEq, Repr

/-- `fixSoundsName`: force `title` and `tag` back to strings. -/
def fixSoundsName (sounds : List Sound) : List Sound :=
  sounds.map (fun sound =>
    { sound with title := jsString sound.title, tag := jsString sound.tag })

/-- Coercion applied to a single sound by `fixSoundsName`. -/
def fixOneSound (sound : Sound) : Sound :=
  { sound with title := jsString sound.title, tag := jsString sound.tag }

/-! ## `getSoundListJSON` -/

/-- The shapes `parser.parse` can give `parsed.Soundlist`: the empty string
for a self-closing `<Soundlist/>`, a bare `{ $: Sound }` object for exactly
one `<Sound>` child, and an array otherwise. -/
inductive SPSoundlist where
  | empty
  | single (s : Sound)
  | multi (ss : List Sound)
  deriving DecidableEq, Repr

/-- The decode portion of `Soundpad.getSoundListJSON` after `parser.parse`:
empty payload gives `[]`; a non-array `Sound` gives the one record as-is
(note: without `fixSoundsName`); an array is mapped through
`fixSoundsName`. -/
def getSoundListJSON : SPSoundlist → List Sound
  | .empty => []
  | .single s => [s]
  | .multi ss => fixSoundsName ss

/-! ## Category decoding (`getCategoriesJSON`, `getCategoryJSON`) -/

/-- Attribute group `$` of a parsed `<Category>` element. -/
structure CategoryAttrs where
  index : Int
  type : Option Int
  name : JSValue
  hidden : Option Bool
  icon : Option String
  deriving DecidableEq, Repr

/-- The parsed `Sound` property of a category element: a bare object for one
child, an array for several (mirrors
`Array.isArray(xmlParsedCategory.Sound)` in `handleCategory`). -/
inductive SPSoundField where
  | single (s : Sound)
  | array (ss : List Sound)
  deriving DecidableEq, Repr

mutual
/-- A parsed `<Category>` element (`SPCategoryResponse` in the source). -/
inductive SPCategoryResponse where
  | mk (attrs : CategoryAttrs) (category : SPCatChild) (sound : Option SPSoundField)

/-- The parsed `Category` property of a category element: absent, a bare
object for one child, or an array. -/
inductive SPCatChild where
  | undef
  | single (c : SPCategoryResponse)
  | array (cs : SPCatList)

/-- A list of parsed category elements. -/
inductive SPCatList where
  | nil
  | cons (c : SPCategoryResponse) (cs : SPCatList)
end

/-- The sub-elements as a plain list, in document order (a bare object
counts as one element). -/
def SPCatChild.toList : SPCatChild → List SPCategoryResponse
  | .undef => []
  | .single c => [c]
  | .array cs => toListOf cs
where
  toListOf : SPCatList → List SPCategoryResponse
    | .nil => []
    | .cons c cs => c :: toListOf cs

/-- A decoded category record as returned by `getCategoriesJSON`
(`handleCategory` always assigns `subCategories`). -/
inductive Category where
  | mk (index : Int) (type : Option Int) (name : JSValue) (hidden : Option Bool)
       (icon : Option String) (sounds : Option (List Sound))
       (subCategories : List Category)

def Category.name : Category → JSValue
  | .mk _ _ n _ _ _ _ => n

def Category.sounds : Category → Option (List Sound)
  | .mk _ _ _ _ _ s _ => s

def Category.subCategories : Category → List Category
  | .mk _ _ _ _ _ _ sc => sc

mutual
/-- `handleCategory` from `getCategoriesJSON`: coerce the name to string,
normalize the optional `Sound` property into a `fixSoundsName`-corrected
list when `withSounds` was requested, and recurse into the `Category`
property (defaulting `subCategories` to `[]`). -/
def handleCategory (withSounds : Bool) : SPCategoryResponse → Category
  | .mk attrs category sound =>
    .mk attrs.index attrs.type (jsString attrs.name) attrs.hidden attrs.icon
      (if withSounds then
        match sound with
        | none => none
        | some (.single s) => some (fixSoundsName [s])
        | some (.array ss) => some (fixSoundsName ss)
       else none)
      (handleChildren withSounds category)

/-- The `xmlParsedCategory.Category !== undefined` branch: a bare object is
wrapped into a one-element list, an array is mapped; absence gives the `[]`
assigned just before. -/
def handleChildren (withSounds : Bool) : SPCatChild → List Category
  | .undef => []
  | .single c => [handleCategory withSounds c]
  | .array cs => handleCatList withSounds cs

def handleCatList (withSounds : Bool) : SPCatList → List Category
  | .nil => []
  | .cons c cs => handleCategory withSounds c :: handleCatList withSounds cs
end

/-- The shapes `parser.parse` can give `parsed.Categories`: the empty string
for a self-closing element, a bare category object (deep-cloned and wrapped
by the source, which is the identity on the parsed data), or an array. -/
inductive SPCategories where
  | empty
  | single (c : SPCategoryResponse)
  | array (cs : SPCatList)

/-- The decode portion of `Soundpad.getCategoriesJSON` after the `R` check
and `parser.parse`. -/
def getCategoriesJSON (withSounds : Bool) : SPCategories → List Category
  | .empty => []
  | .single c => [handleCategory withSounds c]
  | .array cs => handleCatList withSounds cs

/-! Nesting depth of the parsed markup and of the decoded tree. -/

mutual
def SPCategoryResponse.depth : SPCategoryResponse → Nat
  | .mk _ category _ => 1 + SPCatChild.depth category

def SPCatChild.depth : SPCatChild → Nat
  | .undef => 0
  | .single c => SPCategoryResponse.depth c
  | .array cs => SPCatList.depth cs

def SPCatList.depth : SPCatList → Nat
  | .nil => 0
  | .cons c cs => max (SPCategoryResponse.depth c) (SPCatList.depth cs)
end

mutual
def Category.depth : Category → Nat
  | .mk _ _ _ _ _ _ subs => 1 + Category.depthList subs

def Category.depthList : List Category → Nat
  | [] => 0
  | c :: cs => max (Category.depth c) (Category.depthList cs)
end

/-! ## The command-method surface and its protocol-failure behaviour

One constructor per public command method of the `Soundpad` class whose
handling of the reply text is defined locally in `soundpad.ts`
(`getSoundListJSON` is excluded: it performs no status check and hands the
raw reply straight to the external XML parser; `waitForStatus` composes
`getPlayStatus` and issues no command of its own). -/

inductive MethodId where
  | playSound | playPreviousSound | playNextSound | stopSound | togglePause
  | jump | seek | startRecording | stopRecording | search | resetSearch
  | selectPreviousHit | selectNextHit | selectRow | scrollBy | scrollTo
  | getSoundFileCount | getPlaybackPosition | getPlaybackDuration
  | getRecordingPosition | getRecordingPeak | getSoundlist
  | getMainFrameTitleText | getStatusBarText | getPlayStatus | getVersion
  | getRemoteControlVersion | addSound | removeSelectedEntries | undo | redo
  | saveSoundlist | getVolume | isMuted | setVolume | toggleMute | isAlive
  | playSelectedSound | playCurrentSoundAgain | playPreviouslyPlayedSound
  | addCategory | startRecordingSpeakers | startRecordingMicrophone
  | selectCategory | selectPreviousCategory | selectNextCategory
  | removeCategory | getCategories | getCategory | playSoundFromCategory
  | playRandomSound | playRandomSoundFromCategory | isTrial
  | getCategoriesJSON | getCategoryJSON
  deriving DecidableEq, Repr

/-- Whether a method's reply handling threw, and whether it logged. -/
structure ReplyBehavior where
  /-- `some msg` if the method threw an `Error(msg)` on this reply -/
  threw : Option String
  logged : Bool
  deriving DecidableEq, Repr

/-- Per-method reply handling, read off each method body:
`search` logs on any reply other than exactly `"R-200"`; `getPlayStatus`,
`getCategories` and `getCategory` log on an `R`-prefixed reply;
`getCategoriesJSON` and `getCategoryJSON` throw `new Error(response)` on an
`R`-prefixed reply; every remaining method (the `isSuccess`-based booleans,
the `Number.parseInt` getters, the raw-string getters, `isMuted`, `isTrial`)
neither throws nor logs. -/
def replyBehavior : MethodId → String → ReplyBehavior
  | .search, r => { threw := none, logged := r ≠ "R-200" }
  | .getPlayStatus, r => { threw := none, logged := strStartsWith r "R" }
  | .getCategories, r => { threw := none, logged := strStartsWith r "R" }
  | .getCategory, r => { threw := none, logged := strStartsWith r "R" }
  | .getCategoriesJSON, r =>
    { threw := if strStartsWith r "R" then some r else none, logged := false }
  | .getCategoryJSON, r =>
    { threw := if strStartsWith r "R" then some r else none, logged := false }
  | _, _ => { threw := none, logged := false }

/-- The two markup-list getters that decode into records. -/
def isMarkupRecordGetter : MethodId → Bool
  | .getCategoriesJSON => true
  | .getCategoryJSON => true
  | _ => false

/-- The methods whose reply handling writes a diagnostic log line on a
protocol failure. -/
def logsProtocolFailure : MethodId → Bool
  | .search => true
  | .getPlayStatus => true
  | .getCategories => true
  | .getCategory => true
  | _ => false

/-- The `Category` property of a parsed category element. -/
def SPCategoryResponse.category : SPCategoryResponse → SPCatChild
  | .mk _ ch _ => ch

/-- A parsed sound whose `title` and `tag` text was all digits, so the XML
parser inferred numbers for both. -/
def digitTitledSound : Sound :=
  { index := 1, url := "C:\\sounds\\a.mp3", artist := "a", title := .num 12345,
    duration := "0:01", addedOn := "2024-01-01", color := none, tag := .num 67890,
    lastPlayedOn := "2024-01-02", playCount := 0 }

/-! ## Helper lemmas -/

theorem runQueryFrom_resolved (s : String) :
    (es : List TransportEvent) → (i : Nat) →
    runQueryFrom i (.resolved s) es = (.resolved s, []) := by
  intro es
  induction es with
  | nil => intro i; rfl
  | cons e es ih =>
    intro i
    cases e <;> simp [runQueryFrom, queryStep, ih (i + 1)]

theorem runQueryFrom_awaitData (q s : String) (post : List TransportEvent) :
    (mid : List TransportEvent) → (∀ t, TransportEvent.data t ∉ mid) → (i : Nat) →
    runQueryFrom i (.awaitingData q) (mid ++ TransportEvent.data s :: post)
      = (.resolved s, []) := by
  intro mid
  induction mid with
  | nil =>
    intro _ i
    simp [runQueryFrom, queryStep, runQueryFrom_resolved s post (i + 1)]
  | cons e mid ih =>
    intro h i
    have hmid : ∀ t, TransportEvent.data t ∉ mid :=
      fun t ht => h t (List.mem_cons_of_mem e ht)
    cases e with
    | ready g' => simp [runQueryFrom, queryStep, ih hmid (i + 1)]
    | data t => exact absurd (List.mem_cons_self _ mid) (h t)

mutual
theorem handleCategory_depth (ws : Bool) :
    (c : SPCategoryResponse) →
    Category.depth (handleCategory ws c) = SPCategoryResponse.depth c
  | .mk attrs category sound => by
    simp [handleCategory, Category.depth, SPCategoryResponse.depth,
      handleChildren_depth ws category]

theorem handleChildren_depth (ws : Bool) :
    (ch : SPCatChild) →
    Category.depthList (handleChildren ws ch) = SPCatChild.depth ch
  | .undef => rfl
  | .single c => by
    simp [handleChildren, Category.depthList, SPCatChild.depth,
      handleCategory_depth ws c]
  | .array cs => by
    simp [handleChildren, SPCatChild.depth, handleCatList_depth ws cs]

theorem handleCatList_depth (ws : Bool) :
    (cs : SPCatList) →
    Category.depthList (handleCatList ws cs) = SPCatList.depth cs
  | .nil => rfl
  | .cons c cs => by
    simp [handleCatList, Category.depthList, SPCatList.depth,
      handleCategory_depth ws c, handleCatList_depth ws cs]
end

theorem handleCatList_toList (ws : Bool) :
    (cs : SPCatList) →
    handleCatList ws cs = (SPCatChild.toList.toListOf cs).map (handleCategory ws)
  | .nil => rfl
  | .cons c cs => by
    simp [handleCatList, SPCatChild.toList.toListOf, handleCatList_toList ws cs]

theorem handleChildren_toList (ws : Bool) (ch : SPCatChild) :
    handleChildren ws ch = ch.toList.map (handleCategory ws) := by
  cases ch with
  | undef => rfl
  | single c => rfl
  | array cs => simp [handleChildren, SPCatChild.toList, handleCatList_toList ws cs]

/-! ## Claim theorems -/

/-- C1: on the native transport, a `sendQuery` suspended on the
connection-ready signal of generation `g` writes its command bytes exactly
once, at the position of the event resolving that signal (hence only after
the signal resolves, however long the preceding prefix of the trace is), and
its promise resolves with the payload of the very next inbound `data` event
after that write. -/
theorem sendQuery_write_after_ready_resolves_next_data
    (q : String) (g : Nat) (s : String) (pre mid post : List TransportEvent)
    (hpre : TransportEvent.ready g ∉ pre)
    (hmid : ∀ t, TransportEvent.data t ∉ mid) :
    runQuery (.awaitingReady g q)
        (pre ++ TransportEvent.ready g :: (mid ++ TransportEvent.data s :: post))
      = (.resolved s, [(pre.length, q)]) := by
  suffices H : ∀ (pre' : List TransportEvent), TransportEvent.ready g ∉ pre' → ∀ i,
      runQueryFrom i (.awaitingReady g q)
          (pre' ++ TransportEvent.ready g :: (mid ++ TransportEvent.data s :: post))
        = (.resolved s, [(i + pre'.length, q)]) by
    have h := H pre hpre 0
    simpa [runQuery] using h
  intro pre'
  induction pre' with
  | nil =>
    intro _ i
    simp [runQueryFrom, queryStep, runQueryFrom_awaitData q s post mid hmid (i + 1)]
  | cons e pre' ih =>
    intro h i
    have hpre' : TransportEvent.ready g ∉ pre' :=
      fun ht => h (List.mem_cons_of_mem e ht)
    have hne : e ≠ TransportEvent.ready g := fun he => h (he ▸ List.mem_cons_self e pre')
    cases e with
    | ready g' =>
      have hg : g' ≠ g := fun hgg => hne (by rw [hgg])
      have hrec := ih hpre' (i + 1)
      simp [runQueryFrom, queryStep, hg, hrec]
      omega
    | data t =>
      have hrec := ih hpre' (i + 1)
      simp [runQueryFrom, queryStep, hrec]
      omega

/-- C1 witness: a query issued before the connection opens (an early stray
data event precedes the ready signal) writes at the ready event's position
and resolves with the first data event after the write. -/
theorem sendQuery_write_after_ready_resolves_next_data_witness :
    runQuery (.awaitingReady 0 "GetVolume()")
        [TransportEvent.data "early", TransportEvent.ready 0, TransportEvent.ready 1,
         TransportEvent.data "R-200", TransportEvent.data "late"]
      = (.resolved "R-200", [(1, "GetVolume()")]) := by
  have h := sendQuery_write_after_ready_resolves_next_data "GetVolume()" 0 "R-200"
      [TransportEvent.data "early"] [TransportEvent.ready 1] [TransportEvent.data "late"]
      (by decide) (by intro t; simp)
  simpa using h

/-- C2 counterexample: `search` on the reply `"R-200 OK"`, which begins with
the prefix `R-200`, returns `false` (it compares for strict equality); and an
`isSuccess`-based method on the failure reply `"R-404"` returns `false`
without producing any log entry. -/
theorem search_prefix_claim_counterexample :
    strStartsWith "R-200 OK" "R-200" = true
    ∧ (searchReply "R-200 OK").value = false
    ∧ strStartsWith "R-404" "R" = true
    ∧ (isSuccessReply "R-404").value = false
    ∧ (isSuccessReply "R-404").logged = false := by decide

/-- C2 amended: methods built on `isSuccess` return `true` exactly when the
reply begins with `R-200` and never log; `search` returns `true` exactly when
the reply is the exact string `R-200`, and logs exactly when it is not. -/
theorem success_reply_handling_amended (r : String) :
    (isSuccessReply r).value = strStartsWith r "R-200"
    ∧ (isSuccessReply r).logged = false
    ∧ ((searchReply r).value = true ↔ r = "R-200")
    ∧ ((searchReply r).logged = true ↔ r ≠ "R-200") := by
  refine ⟨rfl, rfl, ?_, ?_⟩ <;> by_cases h : r = "R-200" <;> simp [searchReply, h]

/-- C3: with `autoReconnect` enabled, the transport `close` handler marks the
session disconnected, drops the pipe, installs a fresh unresolved
connection-ready signal (next generation), re-invokes `connect()`
(relaunching the target exactly when `startSoundpadOnConnect` is also set),
and a `sendQuery` issued afterwards waits for the new signal: the stale
generation's resolution does not trigger its write, the new one does. -/
theorem close_autoReconnect_rearms_connection_signal
    (st : SessionState) (h : st.options.autoReconnect = true) :
    (handleClose st).state.isConnected = false
    ∧ (handleClose st).state.hasPipe = false
    ∧ (handleClose st).state.awaiterGen = st.awaiterGen + 1
    ∧ (handleClose st).state.awaiterResolved = false
    ∧ (handleClose st).emittedCloseEvent = true
    ∧ (handleClose st).reconnectInvoked = true
    ∧ (handleClose st).relaunched = st.options.startSoundpadOnConnect
    ∧ (∀ q : String,
        queryStep (.awaitingReady (handleClose st).state.awaiterGen q)
            (.ready st.awaiterGen)
          = (.awaitingReady (handleClose st).state.awaiterGen q, none))
    ∧ (∀ q : String,
        queryStep (.awaitingReady (handleClose st).state.awaiterGen q)
            (.ready (handleClose st).state.awaiterGen)
          = (.awaitingData q, some q)) := by
  simp [handleClose, h, queryStep]

/-- C3 witness: a connected session with both options on, closing at
signal generation 5. -/
theorem close_autoReconnect_rearms_connection_signal_witness :
    (handleClose ⟨false, true, true, 5, true, ⟨true, true⟩⟩).state.awaiterGen = 6
    ∧ (handleClose ⟨false, true, true, 5, true, ⟨true, true⟩⟩).reconnectInvoked = true
    ∧ (handleClose ⟨false, true, true, 5, true, ⟨true, true⟩⟩).relaunched = true
    ∧ (handleClose ⟨false, true, true, 5, true, ⟨true, true⟩⟩).state.isConnected = false
    ∧ queryStep (.awaitingReady 6 "GetVolume()") (.ready 5)
        = (.awaitingReady 6 "GetVolume()", none) := by
  have h := close_autoReconnect_rearms_connection_signal
      ⟨false, true, true, 5, true, ⟨true, true⟩⟩ rfl
  exact ⟨h.2.2.1, h.2.2.2.2.2.1, h.2.2.2.2.2.2.1, h.1, h.2.2.2.2.2.2.2.1 "GetVolume()"⟩

/-- C4: `sendQuery` delegates to the custom data driver whenever one is
installed, regardless of pipe or connection state; with no driver and no
pipe it throws the not-connected error when `startSoundpadOnConnect` is off,
and runs the launch hook first when it is on. -/
theorem sendQuery_dispatch_behavior (st : SessionState) :
    (st.hasDataDriver = true → sendQueryDispatch st = SendQueryDispatch.delegatedToDriver)
    ∧ (st.hasDataDriver = false → st.hasPipe = false →
        st.options.startSoundpadOnConnect = false →
        sendQueryDispatch st = SendQueryDispatch.threwNotConnected)
    ∧ (st.hasDataDriver = false → st.hasPipe = false →
        st.options.startSoundpadOnConnect = true →
        sendQueryDispatch st = SendQueryDispatch.launchThenAwait)
    ∧ (st.hasDataDriver = false → st.hasPipe = true →
        sendQueryDispatch st = SendQueryDispatch.awaitThenWrite) := by
  refine ⟨?_, ?_, ?_, ?_⟩ <;> intros <;> simp [sendQueryDispatch, *]

/-- C4 witness: a driver-equipped disconnected session delegates; a bare
disconnected session throws; with auto-launch it launches instead. -/
theorem sendQuery_dispatch_behavior_witness :
    sendQueryDispatch ⟨true, false, false, 0, false, ⟨false, false⟩⟩
      = SendQueryDispatch.delegatedToDriver
    ∧ sendQueryDispatch ⟨false, false, false, 0, false, ⟨false, false⟩⟩
      = SendQueryDispatch.threwNotConnected
    ∧ sendQueryDispatch ⟨false, false, false, 0, false, ⟨false, true⟩⟩
      = SendQueryDispatch.launchThenAwait := by
  exact ⟨(sendQuery_dispatch_behavior ⟨true, false, false, 0, false, ⟨false, false⟩⟩).1 rfl,
    (sendQuery_dispatch_behavior ⟨false, false, false, 0, false, ⟨false, false⟩⟩).2.1 rfl rfl rfl,
    (sendQuery_dispatch_behavior ⟨false, false, false, 0, false, ⟨false, true⟩⟩).2.2.1 rfl rfl rfl⟩

/-- C5: on the single-sound (non-array) payload shape, `getSoundListJSON`
returns the record without applying `fixSoundsName`, so an all-digit `title`
and `tag` remain numbers after decoding, while the array shape of the same
record is coerced to strings — the single-sound path contradicts the stated
string-coercion guarantee. -/
theorem getSoundListJSON_single_sound_keeps_numeric_title :
    (getSoundListJSON (.single digitTitledSound)).map Sound.title = [JSValue.num 12345]
    ∧ (getSoundListJSON (.single digitTitledSound)).map Sound.tag = [JSValue.num 67890]
    ∧ (getSoundListJSON (.multi [digitTitledSound])).map Sound.title = [JSValue.str "12345"]
    ∧ (getSoundListJSON (.multi [digitTitledSound])).map Sound.tag = [JSValue.str "67890"]
    ∧ ((getSoundListJSON (.single digitTitledSound)).all
        (fun t => t.title.isString && t.tag.isString)) = false := by decide

/-- C6: `getSoundListJSON` returns `[]` on the empty payload, a one-element
list with fields matching the sound on the single-sound shape, and one
record per sound in document order (each mapped through the title/tag
coercion, all other fields untouched) on the array shape. -/
theorem getSoundListJSON_shapes (s : Sound) (ss : List Sound) :
    getSoundListJSON .empty = []
    ∧ getSoundListJSON (.single s) = [s]
    ∧ getSoundListJSON (.multi ss) = ss.map fixOneSound
    ∧ (getSoundListJSON (.multi ss)).length = ss.length
    ∧ ((fixOneSound s).index = s.index ∧ (fixOneSound s).url = s.url
       ∧ (fixOneSound s).artist = s.artist ∧ (fixOneSound s).duration = s.duration
       ∧ (fixOneSound s).addedOn = s.addedOn ∧ (fixOneSound s).color = s.color
       ∧ (fixOneSound s).lastPlayedOn = s.lastPlayedOn
       ∧ (fixOneSound s).playCount = s.playCount) := by
  refine ⟨rfl, rfl, rfl, ?_, rfl, rfl, rfl, rfl, rfl, rfl, rfl, rfl⟩
  simp [getSoundListJSON, fixSoundsName]

/-- C7: `getCategoriesJSON` decodes the category markup recursively with no
depth limit: the decoded tree has the same nesting depth as the markup, the
sub-categories are the markup's `Category` children in document order with
the singleton shape normalized to a one-element list (and likewise a
singleton `Sound` child), a category with no `Category` child decodes with
`subCategories = []`, and an empty payload decodes to `[]`. -/
theorem getCategoriesJSON_tree_structure
    (ws : Bool) (c : SPCategoryResponse) (attrs : CategoryAttrs) (s : Sound) :
    Category.depth (handleCategory ws c) = SPCategoryResponse.depth c
    ∧ (handleCategory ws c).subCategories = (c.category.toList).map (handleCategory ws)
    ∧ (handleCategory ws (.mk attrs .undef none)).subCategories = []
    ∧ getCategoriesJSON ws .empty = []
    ∧ (handleCategory true (.mk attrs .undef (some (.single s)))).sounds
        = some [fixOneSound s]
    ∧ (handleCategory true (.mk attrs .undef (some (.array [s])))).sounds
        = some [fixOneSound s]
    ∧ getCategoriesJSON ws (.single c) = [handleCategory ws c] := by
  refine ⟨handleCategory_depth ws c, ?_, rfl, rfl, rfl, rfl, rfl⟩
  cases c with
  | mk a ch snd =>
    simp [handleCategory, Category.subCategories, SPCategoryResponse.category,
      handleChildren_toList ws ch]

/-- C8 counterexample: the failure reply `"R-404"` is `R`-prefixed, yet an
`isSuccess`-based method (`playSound`) absorbs it into `false` without
producing any diagnostic log line, contrary to the claim that every
non-throwing method logs such replies. -/
theorem isSuccess_methods_do_not_log_counterexample :
    strStartsWith "R-404" "R" = true
    ∧ (replyBehavior .playSound "R-404").logged = false
    ∧ (replyBehavior .playSound "R-404").threw = none
    ∧ (isSuccessReply "R-404").value = false := by decide

/-- C8 amended: on any protocol-failure reply (`R`-prefixed and not
`R-200`), among the command methods whose reply handling is local to the
class, exactly the two markup-record getters `getCategoriesJSON` and
`getCategoryJSON` throw — an error carrying the raw reply text — and a
diagnostic log line is produced exactly by `search`, `getPlayStatus`,
`getCategories` and `getCategory`; every other method neither throws nor
logs. -/
theorem protocol_failure_behavior_amended (m : MethodId) (r : String)
    (hR : strStartsWith r "R" = true) (hne : r ≠ "R-200") :
    ((replyBehavior m r).threw = if isMarkupRecordGetter m then some r else none)
    ∧ ((replyBehavior m r).logged = logsProtocolFailure m) := by
  cases m <;> simp [replyBehavior, isMarkupRecordGetter, logsProtocolFailure, hR, hne]

/-- C8 witness: on the reply `"R-404"`, `playSound` neither throws nor logs,
`getCategoriesJSON` throws carrying the reply, `search` logs. -/
theorem protocol_failure_behavior_amended_witness :
    (replyBehavior .playSound "R-404").threw = none
    ∧ (replyBehavior .playSound "R-404").logged = false
    ∧ (replyBehavior .getCategoriesJSON "R-404").threw = some "R-404"
    ∧ (replyBehavior .search "R-404").logged = true := by
  have h1 := protocol_failure_behavior_amended .playSound "R-404" (by decide) (by decide)
  have h2 := protocol_failure_behavior_amended .getCategoriesJSON "R-404" (by decide) (by decide)
  have h3 := protocol_failure_behavior_amended .search "R-404" (by decide) (by decide)
  exact ⟨by simpa using h1.1, by simpa using h1.2, by simpa using h2.1, by simpa using h3.2⟩

/-- C9 counterexample: the unrecognized reply `"UNKNOWN"` makes
`getPlayStatus` return `STOPPED` but, not starting with `R`, it is not
logged — contrary to the claim that every anomalous reply is logged; and the
reply `"toString"`, likewise not one of the four enum names, passes the `in`
test through the prototype chain, so the code returns the inherited
`Object.prototype.toString` member instead of `STOPPED` (also unlogged). -/
theorem getPlayStatus_unrecognized_not_logged :
    (getPlayStatusReply "UNKNOWN").status = PlayStatusReturn.enumValue PlayStatus.STOPPED
    ∧ (getPlayStatusReply "UNKNOWN").logged = false
    ∧ (getPlayStatusReply "toString").status = PlayStatusReturn.inheritedMember "toString"
    ∧ (getPlayStatusReply "toString").logged = false := by decide

/-- C9 amended: `getPlayStatus` returns the matching enum value for each of
the four literal names; a reply equal to an own property name of
`Object.prototype` passes the `in` test through the prototype chain and the
code returns the inherited member rather than a play status; every other
reply returns `STOPPED`; a log entry is produced exactly when the reply
starts with `R`. -/
theorem getPlayStatus_reply_amended (r : String) :
    (getPlayStatusReply "STOPPED").status = PlayStatusReturn.enumValue PlayStatus.STOPPED
    ∧ (getPlayStatusReply "PLAYING").status = PlayStatusReturn.enumValue PlayStatus.PLAYING
    ∧ (getPlayStatusReply "PAUSED").status = PlayStatusReturn.enumValue PlayStatus.PAUSED
    ∧ (getPlayStatusReply "SEEKING").status = PlayStatusReturn.enumValue PlayStatus.SEEKING
    ∧ (r ∈ objectPrototypeKeys →
        (getPlayStatusReply r).status = PlayStatusReturn.inheritedMember r)
    ∧ (r ≠ "STOPPED" ∧ r ≠ "PLAYING" ∧ r ≠ "PAUSED" ∧ r ≠ "SEEKING" ∧
        r ∉ objectPrototypeKeys →
        (getPlayStatusReply r).status = PlayStatusReturn.enumValue PlayStatus.STOPPED)
    ∧ (getPlayStatusReply r).logged = strStartsWith r "R" := by
  refine ⟨by decide, by decide, by decide, by decide, ?_, ?_, rfl⟩
  · intro h
    simp [objectPrototypeKeys] at h
    rcases h with rfl | rfl | rfl | rfl | rfl | rfl | rfl | rfl | rfl | rfl | rfl | rfl
    all_goals decide
  · rintro ⟨h1, h2, h3, h4, h5⟩
    simp [getPlayStatusReply, playStatusLookup, h1, h2, h3, h4, h5]

/-- C9 witness: the non-enum, non-prototype reply `"FOO"` yields `STOPPED`
unlogged; the prototype-key reply `"toString"` yields the inherited member. -/
theorem getPlayStatus_reply_amended_witness :
    (getPlayStatusReply "FOO").status = PlayStatusReturn.enumValue PlayStatus.STOPPED
    ∧ (getPlayStatusReply "toString").status = PlayStatusReturn.inheritedMember "toString"
    ∧ (getPlayStatusReply "FOO").logged = false := by
  have h1 := getPlayStatus_reply_amended "FOO"
  have h2 := getPlayStatus_reply_amended "toString"
  exact ⟨h1.2.2.2.2.2.1 (by decide), h2.2.2.2.2.1 (by decide),
    by rw [h1.2.2.2.2.2.2]; decide⟩

/-- C10: `isMuted` is `true` exactly when the reply parses (by the
`parseInt` convention) to the integer 1; `isTrial` is `null` exactly when
the trimmed reply is empty and otherwise agrees with the same strict
equality to 1; a reply parsing to any other integer, or failing to parse,
yields `false`. -/
theorem integer_coded_getters_strict_one (r : String) (n : Int) :
    (isMuted r = true ↔ jsParseInt r = some 1)
    ∧ (isTrial r = none ↔ jsTrim r = "")
    ∧ (jsTrim r ≠ "" → isTrial r = some (isMuted r))
    ∧ (jsParseInt r = some n → n ≠ 1 → isMuted r = false)
    ∧ (jsParseInt r = none → isMuted r = false) := by
  refine ⟨by simp [isMuted], ?_, ?_, ?_, ?_⟩
  · by_cases h : jsTrim r = "" <;> simp [isTrial, h]
  · intro h; simp [isTrial, isMuted, h]
  · intro h hn; simp [isMuted, h, hn]
  · intro h; simp [isMuted, h]

/-- C10 witness: `"2"` is not muted-true; `" 1 "` is trial-true. -/
theorem integer_coded_getters_strict_one_witness :
    isMuted "2" = false ∧ isTrial " 1 " = some true := by
  refine ⟨(integer_coded_getters_strict_one "2" 2).2.2.2.1 (by decide) (by decide), ?_⟩
  have h := (integer_coded_getters_strict_one " 1 " 1).2.2.1 (by decide)
  rw [h]; decide

end SoundpadJS
